import Mathlib

/-!
Verification of the Compliance-Screenshot-Archiver capture pipeline.

Shallow embedding of the capture engines (`app/capture_engine/engine.py`,
`backend/app/capture_engine/engine.py`, `simple_engine.py`, `mock_engine.py`),
the pipeline orchestrator (`capture_engine/processor.py`), the storage
adapters (`storage/s3.py`, `storage/dynamo.py`) and the capture routes
(`backend/app/api/routes/captures.py`, `app/auth/deps.py`).

Modelling conventions:
- byte strings are `List Nat` (one entry per byte);
- `hashlib.sha256(b).hexdigest()` is an abstract parameter
  `H : Bytes → String` (the Python standard library guarantees it is the
  lowercase hex SHA-256 digest; every theorem about digests is stated for an
  arbitrary `H`, which the source applies to exactly the artifact bytes);
- external I/O (Playwright page rendering, httpx fetches, S3 and DynamoDB
  calls) is supplied through explicit environment records, so that each
  Python function becomes a pure Lean function of its inputs and environment;
- Python exceptions become `Except String` / `Option String` error values;
- timestamps are `Nat` seconds since the epoch.
-/

namespace CSA

/-- Byte strings: one `Nat` per byte. -/
abbrev Bytes := List Nat

/-- A value stored in a Python dict used as record metadata: the processor
mixes strings (version id, retention) and integers (content length). -/
inductive MetaVal where
  | str  : String → MetaVal
  | nat  : Nat → MetaVal
deriving DecidableEq, Repr

/-- `str(v)` applied to a metadata value (used for the `custom-` S3 keys). -/
def MetaVal.toStr : MetaVal → String
  | .str s => s
  | .nat n => toString n

/-- Python dict merge `{**d, **m}`: we model a dict as the sequence of its
assignments, so merging is concatenation and a lookup takes the most recent
binding (`dictGet`), matching Python's later-update-wins semantics. -/
def dictMerge (d m : List (String × MetaVal)) : List (String × MetaVal) :=
  d ++ m

/-- Python dict lookup `d[k]` / `d.get(k)`: the most recent binding wins. -/
def dictGet (d : List (String × MetaVal)) (k : String) : Option MetaVal :=
  (d.reverse.find? (fun p => p.1 = k)).map (fun p => p.2)

/-- The dict every capture engine returns on success
(`data`, `sha256`, `artifact_type`, `url`, `content_length`). -/
structure RenderResult where
  data : Bytes
  sha256 : String
  artifact_type : String
  url : String
  content_length : Nat
deriving DecidableEq, Repr

/-- Options the engines pass to Playwright's `page.pdf`. -/
structure PdfOptions where
  format : String
  print_background : Bool
  margin_top : String
  margin_right : String
  margin_bottom : String
  margin_left : String
  prefer_css_page_size : Bool
deriving DecidableEq, Repr

/-- The externally observable behaviour of one Playwright page session:
whether the `page.goto` waits fail (error text of the raised exception), and
the bytes `page.pdf` / `page.screenshot` produce for given options.  The
`screenshot` argument is the `full_page` flag (`false` = visible viewport
only); the `pdf` argument carries the pagination/print options. -/
structure PageEnv where
  navNetworkidleError : Option String
  navDomcontentloadedError : Option String
  pdf : PdfOptions → Bytes
  screenshot : Bool → Bytes

/-- The `page.pdf` options used by `backend/app/capture_engine/engine.py`:
A4 pages, printed backgrounds, 1cm margins. -/
def backendPdfOptions : PdfOptions :=
  { format := "A4"
    print_background := true
    margin_top := "1cm"
    margin_right := "1cm"
    margin_bottom := "1cm"
    margin_left := "1cm"
    prefer_css_page_size := false }

namespace AppEngine

/-- `src/app/capture_engine/engine.py::capture_webpage`.  Validates the
artifact type, navigates with a single `networkidle` wait (30s timeout, no
fallback), then — per the source comment "Always capture as PNG screenshot" —
takes a viewport screenshot regardless of the requested artifact type, and
returns it labelled with the requested type. -/
def capture_webpage (H : Bytes → String) (env : PageEnv)
    (url : String) (artifact_type : String) : Except String RenderResult :=
  if artifact_type = "pdf" ∨ artifact_type = "png" then
    match env.navNetworkidleError with
    | some e => .error e
    | none =>
      let artifact_data := env.screenshot false
      .ok { data := artifact_data
            sha256 := H artifact_data
            artifact_type := artifact_type
            url := url
            content_length := artifact_data.length }
  else
    .error ("Invalid artifact_type: " ++ artifact_type)

end AppEngine

namespace BackendEngine

/-- The two-tier navigation of `backend/app/capture_engine/engine.py`:
`networkidle` wait (15s) first; on failure fall back to `domcontentloaded`
(15s); only the fallback's failure propagates. -/
def navigate (env : PageEnv) : Except String Unit :=
  match env.navNetworkidleError with
  | none => .ok ()
  | some _ =>
    match env.navDomcontentloadedError with
    | none => .ok ()
    | some e => .error e

/-- `src/backend/app/capture_engine/engine.py::capture_webpage`.  Validates
the artifact type, navigates with the two-tier wait, then renders a
print-formatted A4 PDF for `pdf` and a viewport-only screenshot for `png`. -/
def capture_webpage (H : Bytes → String) (env : PageEnv)
    (url : String) (artifact_type : String) : Except String RenderResult :=
  if artifact_type = "pdf" ∨ artifact_type = "png" then
    match navigate env with
    | .error e => .error e
    | .ok _ =>
      let artifact_data :=
        if artifact_type = "pdf" then env.pdf backendPdfOptions
        else env.screenshot false
      .ok { data := artifact_data
            sha256 := H artifact_data
            artifact_type := artifact_type
            url := url
            content_length := artifact_data.length }
  else
    .error ("Invalid artifact_type: " ++ artifact_type)

end BackendEngine

namespace SimpleEngine

/-- Title extraction of `simple_engine.py` lines 60-65: the text between the
first `<title>` and the following `</title>` (stripped), defaulting to
"Webpage Capture" when the tags are absent, out of order, or adjacent. -/
def extractTitle (content : String) : String :=
  let parts := content.splitOn "<title>"
  if 2 ≤ parts.length then
    let after := String.intercalate "<title>" (parts.drop 1)
    let segs := after.splitOn "</title>"
    if 2 ≤ segs.length then
      let raw := segs.headD ""
      if raw = "" then "Webpage Capture" else raw.trim
    else "Webpage Capture"
  else "Webpage Capture"

/-- Environment of one `capture_webpage_simple` run: the outcome of the
httpx GET (error text of the raised exception, or the response text after
`raise_for_status`), and the text-to-PDF synthesis stage.  `synthesize`
abstracts lines 72-166 of `simple_engine.py` (PIL raster drawing of the
stripped page text plus ReportLab PDF embedding) as an opaque function of
the url, the title and the page content — its output feeds only the
`data`/`sha256`/`content_length` fields. -/
structure HttpEnv where
  fetch : Except String String
  synthesize : String → String → String → Bytes

/-- `src/app/capture_engine/simple_engine.py::capture_webpage_simple`.
Validates the artifact type, rejects `png` with a not-implemented error,
fetches the page (a fetch failure is caught and rendered into the document
rather than raised), and synthesizes a single-page PDF. -/
def capture_webpage_simple (H : Bytes → String) (env : HttpEnv)
    (url : String) (artifact_type : String) : Except String RenderResult :=
  if artifact_type = "pdf" ∨ artifact_type = "png" then
    if artifact_type = "png" then
      .error "PNG capture not implemented in simple engine"
    else
      let artifact_data :=
        match env.fetch with
        | .error e =>
            env.synthesize url "Capture Failed" ("Failed to fetch webpage: " ++ e)
        | .ok content =>
            env.synthesize url (extractTitle content) content
      .ok { data := artifact_data
            sha256 := H artifact_data
            artifact_type := artifact_type
            url := url
            content_length := artifact_data.length }
  else
    .error ("Invalid artifact_type: " ++ artifact_type)

end SimpleEngine

namespace MockEngine

/-- The fixed mock PDF bytes of `mock_engine.py` (ASCII bytes of the literal). -/
def mockPdfBytes : Bytes :=
  (("%PDF-1.4\n1 0 obj\n<< /Type /Catalog /Pages 2 0 R >>\nendobj\n" ++
    "Mock PDF content for testing\n%%EOF").toList).map Char.toNat

/-- The fixed mock PNG bytes of `mock_engine.py` (a minimal valid PNG). -/
def mockPngBytes : Bytes :=
  [0x89, 0x50, 0x4E, 0x47, 0x0D, 0x0A, 0x1A, 0x0A,
   0x00, 0x00, 0x00, 0x0D, 0x49, 0x48, 0x44, 0x52,
   0x00, 0x00, 0x00, 0x01, 0x00, 0x00, 0x00, 0x01,
   0x08, 0x02, 0x00, 0x00, 0x00, 0x90, 0x77, 0x53,
   0xDE, 0x00, 0x00, 0x00, 0x09, 0x70, 0x48, 0x59,
   0x73, 0x00, 0x00, 0x0B, 0x13, 0x00, 0x00, 0x0B,
   0x13, 0x01, 0x00, 0x9A, 0x9C, 0x18, 0x00, 0x00,
   0x00, 0x0A, 0x49, 0x44, 0x41, 0x54, 0x78, 0x9C,
   0x63, 0x60, 0x60, 0x60, 0x00, 0x00, 0x00, 0x04,
   0x00, 0x01, 0x27, 0xB9, 0xB8, 0x1F, 0x00, 0x00,
   0x00, 0x00, 0x49, 0x45, 0x4E, 0x44, 0xAE, 0x42,
   0x60, 0x82]

/-- `src/app/capture_engine/mock_engine.py::capture_webpage_mock`.  Validates
the artifact type and returns the deterministic placeholder bytes. -/
def capture_webpage_mock (H : Bytes → String)
    (url : String) (artifact_type : String) : Except String RenderResult :=
  if artifact_type = "pdf" ∨ artifact_type = "png" then
    let artifact_data := if artifact_type = "pdf" then mockPdfBytes else mockPngBytes
    .ok { data := artifact_data
          sha256 := H artifact_data
          artifact_type := artifact_type
          url := url
          content_length := artifact_data.length }
  else
    .error ("Invalid artifact_type: " ++ artifact_type)

end MockEngine

/-- `MAX_PRESIGN_TTL_SECONDS` of `storage/s3.py` (15-minute security cap). -/
def MAX_PRESIGN_TTL_SECONDS : Int := 900

/-- `DEFAULT_RETENTION_DAYS` of `storage/s3.py` (~7 years). -/
def DEFAULT_RETENTION_DAYS : Nat := 2555

/-- The presigned GET URL `generate_presigned_url` is asked for: bucket, key,
optional `VersionId` parameter, and the `ExpiresIn` TTL. -/
structure PresignedURL where
  bucket : String
  key : String
  version_id : Option String
  expires_in : Int
deriving DecidableEq, Repr

/-- `expires or settings.presign_ttl_seconds`: Python `or`, under which
`None` and `0` fall back to the configured default. -/
def pyOr (expires : Option Int) (dflt : Int) : Int :=
  match expires with
  | none => dflt
  | some n => if n = 0 then dflt else n

/-- The TTL actually passed to `generate_presigned_url`: the Python-`or`
default followed by the 15-minute cap
`if ttl > MAX_PRESIGN_TTL_SECONDS: ttl = MAX_PRESIGN_TTL_SECONDS`. -/
def effectiveTtl (presign_ttl_seconds : Int) (expires : Option Int) : Int :=
  if MAX_PRESIGN_TTL_SECONDS < pyOr expires presign_ttl_seconds then
    MAX_PRESIGN_TTL_SECONDS
  else
    pyOr expires presign_ttl_seconds

namespace AppS3

/-- Environment of one `upload_artifact` call: whether `put_object` raises a
`ClientError` (re-raised by the source), and the store-assigned version id /
etag plus the wall clock read for the retention computation. -/
structure UploadEnv where
  error : Option String
  version_id : String
  etag : String
  now : Nat

/-- The dict `upload_artifact` returns. -/
structure UploadResult where
  bucket : String
  key : String
  version_id : String
  etag : String
  retention_until : Nat
  object_lock_mode : String
deriving DecidableEq, Repr

/-- The effect of a successful `put_object`: the key, the exact body bytes
and the attached metadata. -/
structure S3PutEffect where
  key : String
  body : Bytes
  metadata : List (String × String)
deriving DecidableEq, Repr

/-- `src/app/storage/s3.py::upload_artifact`.  Computes the retention
deadline, extends the caller metadata with `captured-at`/`retention-until`,
and performs the locked `put_object`; a `ClientError` is re-raised. -/
def upload_artifact (env : UploadEnv) (bucket key : String) (data : Bytes)
    (metadata : List (String × String)) (retention_days : Nat) :
    Except String (UploadResult × S3PutEffect) :=
  let retention_until := env.now + retention_days * 86400
  let md := metadata ++
    [("captured-at", toString env.now), ("retention-until", toString retention_until)]
  match env.error with
  | some e => .error e
  | none =>
      .ok ({ bucket := bucket
             key := key
             version_id := env.version_id
             etag := env.etag
             retention_until := retention_until
             object_lock_mode := "COMPLIANCE" },
           { key := key, body := data, metadata := md })

/-- `src/app/storage/s3.py::presign_download`.  No version parameter exists
in this variant; the TTL default and clamp are applied and the URL is
generated for the latest version of the key. -/
def presign_download (presign_ttl_seconds : Int) (bucket key : String)
    (expires : Option Int) : PresignedURL :=
  { bucket := bucket
    key := key
    version_id := none
    expires_in := effectiveTtl presign_ttl_seconds expires }

end AppS3

namespace BackendS3

/-- Outcome of the `head_object` probe for a specific version id:
success, a `ClientError` whose code is one of
`NoSuchVersion`/`NoSuchKey`/`NotFound`/`404`, or any other `ClientError`. -/
inductive HeadOutcome where
  | ok : HeadOutcome
  | notFound : String → HeadOutcome
  | otherError : String → HeadOutcome
deriving DecidableEq, Repr

/-- `src/backend/app/storage/s3.py::presign_download`.  Applies the TTL
default and clamp; when a version id is supplied it is probed with
`head_object`: only on success is `VersionId` included in the URL
parameters — on a missing version (and on any other probe failure) the URL
is generated for the latest version with a logged warning, never raising. -/
def presign_download (presign_ttl_seconds : Int) (bucket key : String)
    (expires : Option Int) (version_id : Option String)
    (head_object : String → HeadOutcome) : PresignedURL :=
  let ttl := effectiveTtl presign_ttl_seconds expires
  let vid : Option String :=
    match version_id with
    | none => none
    | some v =>
      match head_object v with
      | .ok => some v
      | .notFound _ => none
      | .otherError _ => none
  { bucket := bucket, key := key, version_id := vid, expires_in := ttl }

end BackendS3

namespace Dynamo

/-- `storage/dynamo.py::CaptureData`. -/
structure CaptureData where
  capture_id : String
  url : String
  sha256 : String
  s3_key : String
  artifact_type : String
  user_id : String
  metadata : List (String × MetaVal)
deriving DecidableEq, Repr

/-- The item `create_capture` writes to the captures table. -/
structure CaptureItem where
  capture_id : String
  created_at : Nat
  url : String
  sha256 : String
  s3_key : String
  artifact_type : String
  user_id : String
  status : String
  metadata : List (String × MetaVal)
deriving DecidableEq, Repr

/-- The captures table, ordered by range key within each hash key. -/
abbrev CapturesTable := List CaptureItem

/-- `src/backend/app/storage/dynamo.py::create_capture`: the item built and
`put_item`-ed, with `status` unconditionally set to `"completed"` and
`created_at` the current time. -/
def create_capture (now : Nat) (data : CaptureData) : CaptureItem :=
  { capture_id := data.capture_id
    created_at := now
    url := data.url
    sha256 := data.sha256
    s3_key := data.s3_key
    artifact_type := data.artifact_type
    user_id := data.user_id
    status := "completed"
    metadata := data.metadata }

/-- `src/backend/app/storage/dynamo.py::get_capture`: query on the
`capture_id` hash key, returning `items[0]` or `None`. -/
def get_capture (t : CapturesTable) (capture_id : String) : Option CaptureItem :=
  t.find? (fun i => i.capture_id = capture_id)

/-- `src/backend/app/storage/dynamo.py::delete_capture`.  With an explicit
`created_at` the composite-key `delete_item` is issued directly (DynamoDB
deletion of an absent item succeeds); without it the record is first looked
up, and a missing record makes the function log an error and return
`False` without deleting anything. -/
def delete_capture (t : CapturesTable) (capture_id : String)
    (created_at : Option Nat) : Bool × CapturesTable :=
  match created_at with
  | some ca =>
      (true, t.filter (fun i => ¬(i.capture_id = capture_id ∧ i.created_at = ca)))
  | none =>
      match get_capture t capture_id with
      | none => (false, t)
      | some item =>
          (true, t.filter
            (fun i => ¬(i.capture_id = capture_id ∧ i.created_at = item.created_at)))

/-- A schedule record; only the key field matters for the delete claim. -/
structure ScheduleItem where
  schedule_id : String
deriving DecidableEq, Repr

/-- The schedules table. -/
abbrev SchedulesTable := List ScheduleItem

/-- `src/backend/app/storage/dynamo.py::delete_schedule`: a plain
`delete_item` on the hash key, which succeeds whether or not the item
exists, so the function returns `True` in every non-`ClientError` run. -/
def delete_schedule (t : SchedulesTable) (schedule_id : String) :
    Bool × SchedulesTable :=
  (true, t.filter (fun i => ¬ i.schedule_id = schedule_id))

end Dynamo

namespace Auth

/-- The caller identity the auth layer hands to the routes
(`sub` claim plus the role derived from Cognito groups). -/
structure UserInfo where
  sub : String
  role : String
deriving DecidableEq, Repr

/-- `src/app/auth/deps.py::is_admin`. -/
def is_admin (user_info : UserInfo) : Bool :=
  user_info.role == "admin"

/-- `src/app/auth/deps.py::can_access_user_resource`: admins may access any
resource, everyone else only their own. -/
def can_access_user_resource (user_info : UserInfo) (resource_user_id : String) : Bool :=
  is_admin user_info || user_info.sub == resource_user_id

end Auth

namespace Routes

/-- Outcome of the get-capture-by-id route: the record (HTTP 200), a
404 "Capture not found", or a 403 "Access denied". -/
inductive CaptureResponse where
  | ok : Dynamo.CaptureItem → CaptureResponse
  | notFound : CaptureResponse
  | accessDenied : CaptureResponse
deriving DecidableEq, Repr

/-- `src/backend/app/api/routes/captures.py::get_capture_by_id`: fetch the
record, 404 when absent, 403 when `can_access_user_resource` denies, else
return it. -/
def get_capture_by_id (t : Dynamo.CapturesTable) (capture_id : String)
    (user_info : Auth.UserInfo) : CaptureResponse :=
  match Dynamo.get_capture t capture_id with
  | none => .notFound
  | some capture =>
      if Auth.can_access_user_resource user_info capture.user_id then
        .ok capture
      else
        .accessDenied

end Routes

namespace Processor

/-- Environment of one `process_capture_request` run: the bucket setting, the
S3 upload environment, whether the DynamoDB `put_item` raises (re-raised by
`create_capture`), the wall clock read inside `create_capture`, and the
`traceback.format_exc()` text captured in the failure handler. -/
structure ProcEnv where
  bucket : String
  upload : AppS3.UploadEnv
  create_error : Option String
  now : Nat
  stack_trace : String

/-- The dict `process_capture_request` returns, success and failure keys
both modelled as optional fields. -/
structure ProcResult where
  capture_id : String
  url : String
  status : String
  sha256 : Option String
  s3_key : Option String
  artifact_type : Option String
  user_id : Option String
  s3_details : Option AppS3.UploadResult
  ddb_record : Option Dynamo.CaptureItem
  error : Option String
  internal_error : Option String
  stack_trace : Option String
deriving DecidableEq, Repr

/-- A pipeline run's return value together with its persistent effects: the
`put_object` calls that took effect in the artifact store and the
`put_item` calls that took effect in the captures table. -/
structure ProcOutcome where
  result : ProcResult
  uploaded : List AppS3.S3PutEffect
  recorded : List Dynamo.CaptureItem
deriving DecidableEq, Repr

/-- The failure dict built by the `except` handler of
`process_capture_request` (`processor.py` lines 140-148): a sanitized
`error` message, but also `internal_error = str(e)` and the formatted
traceback, all in the returned object. -/
def failedResult (capture_id url err stack : String) : ProcResult :=
  { capture_id := capture_id
    url := url
    status := "failed"
    sha256 := none
    s3_key := none
    artifact_type := none
    user_id := none
    s3_details := none
    ddb_record := none
    error := some "Capture failed - check logs for details"
    internal_error := some err
    stack_trace := some stack }

/-- `src/app/capture_engine/processor.py::process_capture_request` (the
backend variant is line-for-line identical from the render step on).  The
active capture engine — selected in the source by import availability — is
the `capture_webpage` parameter; `capture_id` is the freshly generated
UUID.  Renders, uploads under `captures/(id).(type)` with caller metadata
prefixed `custom-`, then records a capture item whose metadata merges the
derived `s3_version_id`/`content_length`/`retention_until` fields with the
raw caller metadata; any raised step lands in the failure handler. -/
def process_capture_request
    (capture_webpage : String → String → Except String RenderResult)
    (env : ProcEnv) (capture_id : String)
    (url : String) (artifact_type : String) (user_id : String)
    (metadata : List (String × MetaVal)) : ProcOutcome :=
  match capture_webpage url artifact_type with
  | .error e =>
      { result := failedResult capture_id url e env.stack_trace
        uploaded := []
        recorded := [] }
  | .ok capture_result =>
      let sha256_hash := capture_result.sha256
      let artifact_data := capture_result.data
      let s3_key := "captures/" ++ capture_id ++ "." ++ artifact_type
      let upload_metadata :=
        [("url", url), ("artifact-type", artifact_type),
         ("capture-id", capture_id), ("user-id", user_id)] ++
        metadata.map (fun p => ("custom-" ++ p.1, p.2.toStr))
      match AppS3.upload_artifact env.upload env.bucket s3_key artifact_data
          upload_metadata DEFAULT_RETENTION_DAYS with
      | .error e =>
          { result := failedResult capture_id url e env.stack_trace
            uploaded := []
            recorded := [] }
      | .ok (s3_result, put_eff) =>
          let capture_data : Dynamo.CaptureData :=
            { capture_id := capture_id
              url := url
              sha256 := sha256_hash
              s3_key := s3_key
              artifact_type := artifact_type
              user_id := user_id
              metadata := dictMerge
                [("s3_version_id", .str s3_result.version_id),
                 ("content_length", .nat capture_result.content_length),
                 ("retention_until", .nat s3_result.retention_until)]
                metadata }
          match env.create_error with
          | some e =>
              { result := failedResult capture_id url e env.stack_trace
                uploaded := [put_eff]
                recorded := [] }
          | none =>
              let item := Dynamo.create_capture env.now capture_data
              { result :=
                  { capture_id := capture_id
                    url := url
                    status := "completed"
                    sha256 := some sha256_hash
                    s3_key := some s3_key
                    artifact_type := some artifact_type
                    user_id := some user_id
                    s3_details := some s3_result
                    ddb_record := some item
                    error := none
                    internal_error := none
                    stack_trace := none }
                uploaded := [put_eff]
                recorded := [item] }

end Processor

/-! Concrete fixtures used by witnesses and counterexamples. -/

/-- A concrete stand-in for the hex digest function in closed instances. -/
def trivH : Bytes → String := fun b => "digest-" ++ toString b.length

/-- A page session where navigation succeeds, `page.pdf` yields `[0]` and
`page.screenshot` yields `[1]`, whatever the options. -/
def pageEnv01 : PageEnv :=
  { navNetworkidleError := none
    navDomcontentloadedError := none
    pdf := fun _ => [0]
    screenshot := fun _ => [1] }

/-- A fetch-and-synthesize session returning the bytes `[2]`. -/
def httpEnvOk : SimpleEngine.HttpEnv :=
  { fetch := .ok "<html><title>t</title></html>"
    synthesize := fun _ _ _ => [2] }

/-- An S3 upload environment where `put_object` succeeds. -/
def okUploadEnv : AppS3.UploadEnv :=
  { error := none, version_id := "v1", etag := "etag1", now := 1000 }

/-- A pipeline environment where the upload and the record write succeed. -/
def okProcEnv : Processor.ProcEnv :=
  { bucket := "artifacts"
    upload := okUploadEnv
    create_error := none
    now := 1000
    stack_trace := "Traceback (most recent call last): boom" }

/-- A renderer that raises during navigation. -/
def failingEngine : String → String → Except String RenderResult :=
  fun _ _ => .error "net::ERR_TIMED_OUT at navigation"

/-- A successful mock-engine pipeline run whose caller metadata contains a
`content_length` key of its own. -/
def shadowedRun : Processor.ProcOutcome :=
  Processor.process_capture_request (MockEngine.capture_webpage_mock trivH)
    okProcEnv "cap-1" "https://example.com" "pdf" "user-A"
    [("content_length", .nat 0)]

/-- A pipeline run whose renderer raises. -/
def failedRun : Processor.ProcOutcome :=
  Processor.process_capture_request failingEngine okProcEnv "cap-1"
    "https://example.com" "pdf" "user-A" []

/-- A persisted capture record owned by `user-A`. -/
def cItem : Dynamo.CaptureItem :=
  { capture_id := "cap-1"
    created_at := 42
    url := "https://example.com"
    sha256 := "aa"
    s3_key := "captures/cap-1.pdf"
    artifact_type := "pdf"
    user_id := "user-A"
    status := "completed"
    metadata := [] }

/-- A captures table holding exactly `cItem`. -/
def cTable : Dynamo.CapturesTable := [cItem]

/-- The owner of `cItem`. -/
def userA : Auth.UserInfo := { sub := "user-A", role := "operator" }

/-- An admin-role caller who does not own `cItem`. -/
def userAdmin : Auth.UserInfo := { sub := "root", role := "admin" }

/-- A non-admin caller who does not own `cItem`. -/
def userB : Auth.UserInfo := { sub := "user-B", role := "operator" }

/-! Helper lemmas. -/

/-- The effective presign TTL never exceeds the 900-second cap. -/
theorem effectiveTtl_le (s : Int) (e : Option Int) : effectiveTtl s e ≤ 900 := by
  unfold effectiveTtl MAX_PRESIGN_TTL_SECONDS
  split <;> omega

/-- A requested TTL of 1800 seconds is clamped to exactly 900. -/
theorem effectiveTtl_1800 (s : Int) : effectiveTtl s (some 1800) = 900 := by
  have h : pyOr (some 1800) s = 1800 := by simp [pyOr]
  unfold effectiveTtl MAX_PRESIGN_TTL_SECONDS
  rw [h]
  norm_num

/-- `find?` skips a block in which nothing satisfies the predicate. -/
theorem find_none_append {α : Type} (p : α → Bool) (l₁ l₂ : List α)
    (h : l₁.find? p = none) : (l₁ ++ l₂).find? p = l₂.find? p := by
  induction l₁ with
  | nil => simp
  | cons a t ih =>
    by_cases hpa : p a = true
    · simp [List.find?_cons_of_pos _ hpa] at h
    · have h' : t.find? p = none := by
        simpa [List.find?_cons_of_neg _ hpa] using h
      simp [List.find?_cons_of_neg, hpa, ih h']

/-- Merging caller metadata that avoids a key leaves that key's binding. -/
theorem dictGet_dictMerge_of_avoid (base m : List (String × MetaVal))
    (k : String) (h : ∀ p ∈ m, p.1 ≠ k) :
    dictGet (dictMerge base m) k = dictGet base k := by
  unfold dictGet dictMerge
  rw [List.reverse_append, find_none_append]
  exact List.find?_eq_none.mpr (fun p hp => by
    simpa using h p (List.mem_reverse.mp hp))

/-- C5: every presigned download URL — in both storage adapters — is
generated with an effective TTL of at most 900 seconds, and a requested
`expires=1800` is clamped to exactly 900. -/
theorem presign_ttl_never_exceeds_900
    (ttlSetting : Int) (bucket key : String) (expires : Option Int)
    (vid : Option String) (head : String → BackendS3.HeadOutcome) :
    (AppS3.presign_download ttlSetting bucket key expires).expires_in ≤ 900 ∧
    (BackendS3.presign_download ttlSetting bucket key expires vid head).expires_in ≤ 900 ∧
    (AppS3.presign_download ttlSetting bucket key (some 1800)).expires_in = 900 ∧
    (BackendS3.presign_download ttlSetting bucket key (some 1800) vid head).expires_in = 900 := by
  refine ⟨?_, ?_, ?_, ?_⟩ <;>
    simp [AppS3.presign_download, BackendS3.presign_download,
      effectiveTtl_le, effectiveTtl_1800]

/-- C6: when the supplied version token no longer resolves (the
`head_object` probe reports a not-found class error), `presign_download`
returns the URL generated for the latest version of the key — the same URL
as a request without a version token — instead of raising. -/
theorem presign_stale_version_uses_latest
    (ttlSetting : Int) (bucket key : String) (expires : Option Int)
    (v code : String) (head : String → BackendS3.HeadOutcome)
    (h : head v = BackendS3.HeadOutcome.notFound code) :
    BackendS3.presign_download ttlSetting bucket key expires (some v) head =
      BackendS3.presign_download ttlSetting bucket key expires none head ∧
    (BackendS3.presign_download ttlSetting bucket key expires (some v) head).version_id
      = none := by
  constructor <;> simp [BackendS3.presign_download, h]

/-- Witness for C6 at the concrete stale token "gone". -/
theorem presign_stale_version_uses_latest_witness :
    BackendS3.presign_download 300 "artifacts" "captures/cap-1.pdf" none
        (some "gone") (fun _ => BackendS3.HeadOutcome.notFound "NoSuchVersion") =
      BackendS3.presign_download 300 "artifacts" "captures/cap-1.pdf" none
        none (fun _ => BackendS3.HeadOutcome.notFound "NoSuchVersion") ∧
    (BackendS3.presign_download 300 "artifacts" "captures/cap-1.pdf" none
        (some "gone") (fun _ => BackendS3.HeadOutcome.notFound "NoSuchVersion")).version_id
      = none :=
  presign_stale_version_uses_latest 300 "artifacts" "captures/cap-1.pdf" none
    "gone" "NoSuchVersion" (fun _ => BackendS3.HeadOutcome.notFound "NoSuchVersion") rfl

/-- C7 counterexample: on a table holding the record, deleting the same
capture identity twice (with `created_at` omitted, as the delete route
does) returns `True` the first time but `False` the second time, because
the second call's record lookup fails — refuting "returns true both
times, including the second call on an already-deleted identity". -/
theorem delete_capture_twice_second_false :
    (Dynamo.delete_capture cTable "cap-1" none).1 = true ∧
    (Dynamo.delete_capture
        (Dynamo.delete_capture cTable "cap-1" none).2 "cap-1" none).1 = false := by
  decide

/-- C7 as amended: with the composite key supplied (`created_at` given),
deleting a capture twice returns `True` both times without raising — the
second call on the already-deleted identity included — and leaves the
table unchanged; schedule deletion is likewise idempotent and
`True`-returning. -/
theorem delete_idempotent
    (t : Dynamo.CapturesTable) (cid : String) (ca : Nat)
    (st : Dynamo.SchedulesTable) (sid : String) :
    (Dynamo.delete_capture t cid (some ca)).1 = true ∧
    (Dynamo.delete_capture (Dynamo.delete_capture t cid (some ca)).2 cid (some ca)).1
      = true ∧
    (Dynamo.delete_capture (Dynamo.delete_capture t cid (some ca)).2 cid (some ca)).2
      = (Dynamo.delete_capture t cid (some ca)).2 ∧
    (Dynamo.delete_schedule st sid).1 = true ∧
    (Dynamo.delete_schedule (Dynamo.delete_schedule st sid).2 sid).1 = true := by
  unfold Dynamo.delete_capture Dynamo.delete_schedule
  refine ⟨rfl, rfl, ?_, rfl, rfl⟩
  simp [List.filter_filter]

/-- Every success of the mock engine hashes and measures exactly the bytes
it returns. -/
theorem mock_engine_good (H : Bytes → String) :
    ∀ u k r, MockEngine.capture_webpage_mock H u k = .ok r →
      r.sha256 = H r.data ∧ r.content_length = r.data.length := by
  intro u k r h
  unfold MockEngine.capture_webpage_mock at h
  split at h
  · simp only [Except.ok.injEq] at h
    subst h
    exact ⟨rfl, rfl⟩
  · cases h

/-- C2: when the renderer raises, the pipeline returns a result with status
"failed", no provenance-store create takes effect, and no upload takes
effect either. -/
theorem render_failure_no_record
    (eng : String → String → Except String RenderResult)
    (penv : Processor.ProcEnv) (cid url k uid : String)
    (md : List (String × MetaVal)) (e : String)
    (h : eng url k = .error e) :
    (Processor.process_capture_request eng penv cid url k uid md).result.status
      = "failed" ∧
    (Processor.process_capture_request eng penv cid url k uid md).recorded = [] ∧
    (Processor.process_capture_request eng penv cid url k uid md).uploaded = [] := by
  refine ⟨?_, ?_, ?_⟩ <;>
    simp [Processor.process_capture_request, h, Processor.failedResult]

/-- Witness for C2: a renderer raising a navigation timeout. -/
theorem render_failure_no_record_witness :
    failingEngine "https://example.com" "pdf"
      = .error "net::ERR_TIMED_OUT at navigation" ∧
    (failedRun.result.status = "failed" ∧
     failedRun.recorded = [] ∧ failedRun.uploaded = []) :=
  ⟨rfl, render_failure_no_record failingEngine okProcEnv "cap-1"
    "https://example.com" "pdf" "user-A" [] "net::ERR_TIMED_OUT at navigation" rfl⟩

/-- C3 exhibit (code bug): on a render failure the object
`process_capture_request` returns carries the raw internal exception text
and the formatted stack trace in its `internal_error` and `stack_trace`
fields, right next to the sanitized `error` message — despite the source
comment "Don't expose internal details in the response" — and the Lambda
handlers (`handle_scheduled_capture`, `handle_sqs_batch`,
`handle_direct_capture`) return this object verbatim to their invokers. -/
theorem failed_result_exposes_internal_error :
    failedRun.result.error = some "Capture failed - check logs for details" ∧
    failedRun.result.internal_error = some "net::ERR_TIMED_OUT at navigation" ∧
    failedRun.result.stack_trace
      = some "Traceback (most recent call last): boom" :=
  ⟨rfl, rfl, rfl⟩

/-- C4 counterexample: the app-variant browser engine, asked for kind
`pdf`, returns the viewport screenshot bytes labelled "pdf" — not the
bytes the page's PDF renderer would produce — so the output format does
not match the requested kind. -/
theorem app_engine_pdf_kind_yields_screenshot :
    AppEngine.capture_webpage trivH pageEnv01 "https://example.com" "pdf"
      = .ok { data := [1], sha256 := trivH [1], artifact_type := "pdf",
              url := "https://example.com", content_length := 1 } ∧
    pageEnv01.screenshot false = [1] ∧
    pageEnv01.pdf backendPdfOptions = [0] ∧
    ([1] : Bytes) ≠ [0] :=
  ⟨rfl, rfl, rfl, by decide⟩

/-- C4 as amended: in the backend browser-automation engine the produced
bytes always match the requested kind — `pdf` yields the paginated A4
print render with backgrounds and 1cm margins, `png` the viewport-only
screenshot — whereas the app-variant browser engine produces the
viewport-only screenshot for every requested kind. -/
theorem engine_output_matches_strategy
    (H : Bytes → String) (env : PageEnv) (url k : String)
    (rpdf rpng rapp : RenderResult)
    (hpdf : BackendEngine.capture_webpage H env url "pdf" = .ok rpdf)
    (hpng : BackendEngine.capture_webpage H env url "png" = .ok rpng)
    (happ : AppEngine.capture_webpage H env url k = .ok rapp) :
    rpdf.data = env.pdf backendPdfOptions ∧
    rpng.data = env.screenshot false ∧
    rapp.data = env.screenshot false := by
  refine ⟨?_, ?_, ?_⟩
  · unfold BackendEngine.capture_webpage at hpdf
    rw [if_pos (Or.inl rfl)] at hpdf
    cases hnav : BackendEngine.navigate env with
    | error e => rw [hnav] at hpdf; simp at hpdf
    | ok u =>
      rw [hnav] at hpdf
      simp only [Except.ok.injEq] at hpdf
      subst hpdf
      simp
  · unfold BackendEngine.capture_webpage at hpng
    rw [if_pos (Or.inr rfl)] at hpng
    cases hnav : BackendEngine.navigate env with
    | error e => rw [hnav] at hpng; simp at hpng
    | ok u =>
      rw [hnav] at hpng
      simp only [Except.ok.injEq] at hpng
      subst hpng
      simp
  · unfold AppEngine.capture_webpage at happ
    split at happ
    · cases hnav : env.navNetworkidleError with
      | some e => rw [hnav] at happ; simp at happ
      | none =>
        rw [hnav] at happ
        simp only [Except.ok.injEq] at happ
        subst happ
        rfl
    · cases happ

/-- Witness for C4 as amended, at a page whose PDF render is `[0]` and
whose screenshot is `[1]`. -/
theorem engine_output_matches_strategy_witness :
    (([0] : Bytes) = pageEnv01.pdf backendPdfOptions ∧
     ([1] : Bytes) = pageEnv01.screenshot false ∧
     ([1] : Bytes) = pageEnv01.screenshot false) := by
  have h := engine_output_matches_strategy trivH pageEnv01 "https://example.com"
    "png"
    { data := [0], sha256 := trivH [0], artifact_type := "pdf",
      url := "https://example.com", content_length := 1 }
    { data := [1], sha256 := trivH [1], artifact_type := "png",
      url := "https://example.com", content_length := 1 }
    { data := [1], sha256 := trivH [1], artifact_type := "png",
      url := "https://example.com", content_length := 1 }
    rfl rfl rfl
  exact h

/-- C8: for an artifact kind that is neither `pdf` nor `png`, every
rendering strategy fails with the validation error for any environment —
the result does not depend on the page, fetch or store environments, so no
network, browser, upload or record activity occurs — and the pipeline
records and uploads nothing. -/
theorem invalid_artifact_type_fails_fast
    (k : String) (h1 : k ≠ "pdf") (h2 : k ≠ "png")
    (H : Bytes → String) (env : PageEnv) (envH : SimpleEngine.HttpEnv)
    (penv : Processor.ProcEnv) (cid url uid : String)
    (md : List (String × MetaVal)) :
    AppEngine.capture_webpage H env url k
      = .error ("Invalid artifact_type: " ++ k) ∧
    BackendEngine.capture_webpage H env url k
      = .error ("Invalid artifact_type: " ++ k) ∧
    SimpleEngine.capture_webpage_simple H envH url k
      = .error ("Invalid artifact_type: " ++ k) ∧
    MockEngine.capture_webpage_mock H url k
      = .error ("Invalid artifact_type: " ++ k) ∧
    (Processor.process_capture_request (AppEngine.capture_webpage H env)
        penv cid url k uid md).result.status = "failed" ∧
    (Processor.process_capture_request (AppEngine.capture_webpage H env)
        penv cid url k uid md).uploaded = [] ∧
    (Processor.process_capture_request (AppEngine.capture_webpage H env)
        penv cid url k uid md).recorded = [] := by
  have hcond : ¬(k = "pdf" ∨ k = "png") := by tauto
  refine ⟨?_, ?_, ?_, ?_, ?_, ?_, ?_⟩ <;>
    simp [AppEngine.capture_webpage, BackendEngine.capture_webpage,
      SimpleEngine.capture_webpage_simple, MockEngine.capture_webpage_mock,
      Processor.process_capture_request, Processor.failedResult, hcond]

/-- Witness for C8 at the concrete invalid kind "svg". -/
theorem invalid_artifact_type_fails_fast_witness :
    (("svg" : String) ≠ "pdf") ∧ (("svg" : String) ≠ "png") ∧
    (AppEngine.capture_webpage trivH pageEnv01 "https://example.com" "svg"
      = .error ("Invalid artifact_type: " ++ "svg") ∧
    BackendEngine.capture_webpage trivH pageEnv01 "https://example.com" "svg"
      = .error ("Invalid artifact_type: " ++ "svg") ∧
    SimpleEngine.capture_webpage_simple trivH httpEnvOk "https://example.com" "svg"
      = .error ("Invalid artifact_type: " ++ "svg") ∧
    MockEngine.capture_webpage_mock trivH "https://example.com" "svg"
      = .error ("Invalid artifact_type: " ++ "svg") ∧
    (Processor.process_capture_request
        (AppEngine.capture_webpage trivH pageEnv01)
        okProcEnv "cap-1" "https://example.com" "svg" "user-A" []).result.status
      = "failed" ∧
    (Processor.process_capture_request
        (AppEngine.capture_webpage trivH pageEnv01)
        okProcEnv "cap-1" "https://example.com" "svg" "user-A" []).uploaded = [] ∧
    (Processor.process_capture_request
        (AppEngine.capture_webpage trivH pageEnv01)
        okProcEnv "cap-1" "https://example.com" "svg" "user-A" []).recorded = []) :=
  ⟨by decide, by decide,
    invalid_artifact_type_fails_fast "svg" (by decide) (by decide) trivH
      pageEnv01 httpEnvOk okProcEnv "cap-1" "https://example.com" "user-A" []⟩

/-- C9: a persisted record owned by user-A is returned to user-A and to any
admin-role caller, while a non-admin caller with a different identity gets
the access-denied outcome, which is distinct from not-found. -/
theorem capture_access_owner_admin_other
    (t : Dynamo.CapturesTable) (cid : String) (c : Dynamo.CaptureItem)
    (hget : Dynamo.get_capture t cid = some c)
    (uA uAdm uB : Auth.UserInfo)
    (hA : uA.sub = c.user_id)
    (hAdm : uAdm.role = "admin")
    (hBsub : uB.sub ≠ c.user_id) (hBrole : uB.role ≠ "admin") :
    Routes.get_capture_by_id t cid uA = Routes.CaptureResponse.ok c ∧
    Routes.get_capture_by_id t cid uAdm = Routes.CaptureResponse.ok c ∧
    Routes.get_capture_by_id t cid uB = Routes.CaptureResponse.accessDenied ∧
    Routes.CaptureResponse.accessDenied ≠ Routes.CaptureResponse.notFound := by
  refine ⟨?_, ?_, ?_, by simp⟩ <;>
    simp [Routes.get_capture_by_id, hget, Auth.can_access_user_resource,
      Auth.is_admin, hA, hAdm, hBsub, hBrole]

/-- Witness for C9 over the one-record table `cTable`. -/
theorem capture_access_owner_admin_other_witness :
    Dynamo.get_capture cTable "cap-1" = some cItem ∧
    userA.sub = cItem.user_id ∧
    userAdmin.role = "admin" ∧
    userB.sub ≠ cItem.user_id ∧
    userB.role ≠ "admin" ∧
    (Routes.get_capture_by_id cTable "cap-1" userA
        = Routes.CaptureResponse.ok cItem ∧
     Routes.get_capture_by_id cTable "cap-1" userAdmin
        = Routes.CaptureResponse.ok cItem ∧
     Routes.get_capture_by_id cTable "cap-1" userB
        = Routes.CaptureResponse.accessDenied ∧
     Routes.CaptureResponse.accessDenied ≠ Routes.CaptureResponse.notFound) :=
  ⟨rfl, rfl, rfl, by decide, by decide,
    capture_access_owner_admin_other cTable "cap-1" cItem rfl
      userA userAdmin userB rfl rfl (by decide) (by decide)⟩

/-- C10: `create_capture` unconditionally writes status "completed", and
every record the pipeline ever persists — over every engine, environment
and input — has status "completed"; no path persists a "failed" record
even though the item type admits that value. -/
theorem provenance_records_always_completed
    (now : Nat) (data : Dynamo.CaptureData)
    (eng : String → String → Except String RenderResult)
    (penv : Processor.ProcEnv) (cid url k uid : String)
    (md : List (String × MetaVal)) :
    (Dynamo.create_capture now data).status = "completed" ∧
    ((Processor.process_capture_request eng penv cid url k uid md).recorded.all
      (fun i => i.status == "completed")) = true := by
  refine ⟨rfl, ?_⟩
  unfold Processor.process_capture_request AppS3.upload_artifact
  cases heng : eng url k with
  | error e => simp
  | ok r =>
    cases hu : penv.upload.error with
    | some e => simp
    | none =>
      cases hc : penv.create_error with
      | some e => simp
      | none => simp [Dynamo.create_capture]

/-- C1 counterexample: a successful capture whose caller-supplied metadata
map itself contains a `content_length` key.  The record-metadata merge
`(derived fields, **caller metadata)` lets the caller's value shadow the
derived byte length, so the completed record's `content_length` is `0`
while the uploaded artifact is non-empty.  (The SQS and direct-invoke
Lambda handlers pass caller metadata through unfiltered.) -/
theorem content_length_shadowed_by_caller_metadata :
    shadowedRun.result.status = "completed" ∧
    shadowedRun.uploaded.map (fun e => e.body) = [MockEngine.mockPdfBytes] ∧
    shadowedRun.recorded.map (fun i => dictGet i.metadata "content_length")
      = [some (MetaVal.nat 0)] ∧
    MockEngine.mockPdfBytes.length ≠ 0 :=
  ⟨rfl, rfl, rfl, by decide⟩

/-- C1 as amended: for every capture attempt that completes, over any
engine that hashes and measures the bytes it returns (all three engines
do), the digest stored in the provenance record is the digest of exactly
the uploaded bytes, and — provided the caller-supplied metadata does not
itself contain a `content_length` key — the `content_length` recorded in
the record's metadata equals the byte length of those same bytes. -/
theorem completed_digest_and_length_match_upload
    (H : Bytes → String)
    (eng : String → String → Except String RenderResult)
    (hgood : ∀ u k r, eng u k = .ok r →
      r.sha256 = H r.data ∧ r.content_length = r.data.length)
    (penv : Processor.ProcEnv) (cid url k uid : String)
    (md : List (String × MetaVal))
    (hmd : ∀ p ∈ md, p.1 ≠ "content_length")
    (hdone : (Processor.process_capture_request eng penv cid url k uid md).result.status
      = "completed") :
    ∃ eff item,
      (Processor.process_capture_request eng penv cid url k uid md).uploaded
        = [eff] ∧
      (Processor.process_capture_request eng penv cid url k uid md).recorded
        = [item] ∧
      item.sha256 = H eff.body ∧
      dictGet item.metadata "content_length" = some (.nat eff.body.length) := by
  cases heng : eng url k with
  | error e =>
    exfalso
    simp [Processor.process_capture_request, heng, Processor.failedResult] at hdone
  | ok r =>
    cases hu : penv.upload.error with
    | some e =>
      exfalso
      simp [Processor.process_capture_request, AppS3.upload_artifact, heng, hu,
        Processor.failedResult] at hdone
    | none =>
      cases hc : penv.create_error with
      | some e =>
        exfalso
        simp [Processor.process_capture_request, AppS3.upload_artifact, heng,
          hu, hc, Processor.failedResult] at hdone
      | none =>
        simp only [Processor.process_capture_request, AppS3.upload_artifact,
          heng, hu, hc, Dynamo.create_capture]
        refine ⟨_, _, rfl, rfl, ?_, ?_⟩
        · exact (hgood url k r heng).1
        · rw [dictGet_dictMerge_of_avoid _ _ _ hmd]
          have hlen := (hgood url k r heng).2
          simp [dictGet, hlen]

/-- Witness for C1 as amended: a completed mock-engine run whose caller
metadata avoids the `content_length` key. -/
theorem completed_digest_and_length_match_upload_witness :
    (Processor.process_capture_request (MockEngine.capture_webpage_mock trivH)
        okProcEnv "cap-2" "https://example.com" "pdf" "user-A"
        [("triggered_via", .str "api")]).result.status = "completed" ∧
    ∃ eff item,
      (Processor.process_capture_request (MockEngine.capture_webpage_mock trivH)
          okProcEnv "cap-2" "https://example.com" "pdf" "user-A"
          [("triggered_via", .str "api")]).uploaded = [eff] ∧
      (Processor.process_capture_request (MockEngine.capture_webpage_mock trivH)
          okProcEnv "cap-2" "https://example.com" "pdf" "user-A"
          [("triggered_via", .str "api")]).recorded = [item] ∧
      item.sha256 = trivH eff.body ∧
      dictGet item.metadata "content_length" = some (.nat eff.body.length) :=
  ⟨rfl,
    completed_digest_and_length_match_upload trivH
      (MockEngine.capture_webpage_mock trivH) (mock_engine_good trivH)
      okProcEnv "cap-2" "https://example.com" "pdf" "user-A"
      [("triggered_via", .str "api")] (by decide) rfl⟩

/-- Witness for C5 at a concrete 300-second setting. -/
theorem presign_ttl_never_exceeds_900_witness :
    (AppS3.presign_download 300 "artifacts" "captures/cap-1.pdf" none).expires_in
      ≤ 900 ∧
    (BackendS3.presign_download 300 "artifacts" "captures/cap-1.pdf" none none
        (fun _ => BackendS3.HeadOutcome.ok)).expires_in ≤ 900 ∧
    (AppS3.presign_download 300 "artifacts" "captures/cap-1.pdf"
        (some 1800)).expires_in = 900 ∧
    (BackendS3.presign_download 300 "artifacts" "captures/cap-1.pdf" (some 1800)
        none (fun _ => BackendS3.HeadOutcome.ok)).expires_in = 900 :=
  presign_ttl_never_exceeds_900 300 "artifacts" "captures/cap-1.pdf" none
    none (fun _ => BackendS3.HeadOutcome.ok)

/-- Witness for C7 as amended, on the one-record table. -/
theorem delete_idempotent_witness :
    (Dynamo.delete_capture cTable "cap-1" (some 42)).1 = true ∧
    (Dynamo.delete_capture
        (Dynamo.delete_capture cTable "cap-1" (some 42)).2 "cap-1" (some 42)).1
      = true ∧
    (Dynamo.delete_capture
        (Dynamo.delete_capture cTable "cap-1" (some 42)).2 "cap-1" (some 42)).2
      = (Dynamo.delete_capture cTable "cap-1" (some 42)).2 ∧
    (Dynamo.delete_schedule [] "s-1").1 = true ∧
    (Dynamo.delete_schedule (Dynamo.delete_schedule [] "s-1").2 "s-1").1 = true :=
  delete_idempotent cTable "cap-1" 42 [] "s-1"

/-- Witness for C10 at a concrete record and a concrete failed run. -/
theorem provenance_records_always_completed_witness :
    (Dynamo.create_capture 42
        { capture_id := "cap-1", url := "https://example.com", sha256 := "aa",
          s3_key := "captures/cap-1.pdf", artifact_type := "pdf",
          user_id := "user-A", metadata := [] }).status = "completed" ∧
    ((Processor.process_capture_request failingEngine okProcEnv "cap-1"
        "https://example.com" "pdf" "user-A" []).recorded.all
      (fun i => i.status == "completed")) = true :=
  provenance_records_always_completed 42
    { capture_id := "cap-1", url := "https://example.com", sha256 := "aa",
      s3_key := "captures/cap-1.pdf", artifact_type := "pdf",
      user_id := "user-A", metadata := [] }
    failingEngine okProcEnv "cap-1" "https://example.com" "pdf" "user-A" []

end CSA
